import Mathlib

/-!
Verification of the pcfactory-monitor core subsystem (category monitor and
delivery monitor) against its specification.

The Python sources `monitor.py` and `delivery_monitor.py` are shallowly
embedded below.  Network I/O is modelled by passing the outcome of each HTTP
call as an explicit argument: `Except String α` is a call that either raised
an exception carrying message `String` (Python `requests.RequestException`
resp. any `Exception`) or returned a response of shape `α`.  Wall-clock
latency measurement (`elapsed_ms`) is environment-determined and carried
nowhere by the properties below, so it is omitted from the embedded records.
Dictionaries holding optional JSON fields become `Option` fields; Python
truthiness of an optional integer (`if item.get("id"):`) is `≠ some 0` and
`≠ none`.
-/

/-- Python `round(x, 1)` rounds half to even (banker's rounding); integer part,
ties to even. -/
def pyRoundInt (q : ℚ) : ℤ :=
  if q - ⌊q⌋ < 1/2 then ⌊q⌋
  else if 1/2 < q - ⌊q⌋ then ⌊q⌋ + 1
  else if Even ⌊q⌋ then ⌊q⌋ else ⌊q⌋ + 1

/-- Python `round(x, 1)`: one decimal digit, ties to even. -/
def round1 (q : ℚ) : ℚ := (pyRoundInt (q * 10) : ℚ) / 10

/-- Modelled from the spec: `healthScore = available / (available+unavailable)`
as a percentage, defined as 0 when that denominator is 0. -/
def spec_healthScore (avail unavail : ℕ) : ℚ :=
  if avail + unavail = 0 then 0 else (avail : ℚ) / ((avail : ℚ) + (unavail : ℚ)) * 100

namespace Monitor

/-- A response to `session.get` as far as `probe`/`check_products` inspect it:
the HTTP status code and the `Retry-After` header when present with an
integer value (a non-integer header value makes `int(...)` raise, which the
source swallows, so it behaves as an absent header for the sleep). -/
structure HttpResp where
  status : ℕ
  retryAfter : Option ℤ := none
  deriving DecidableEq

/-- A response to the products query: status, `Retry-After`, and the value at
`content.pageable.totalElements` of the JSON body (`none` when the path is
missing; the source then defaults it to 0). -/
structure ProductsResp where
  status : ℕ
  retryAfter : Option ℤ := none
  totalElements : Option ℤ := none
  deriving DecidableEq

/-- The `Retry-After` handling shared by `probe` and `check_products`
(`monitor.py` lines 123-128 and 162-167): on a 429 response carrying an
integer `Retry-After` value `w`, `time.sleep(min(w, 20))`; a negative
argument makes `time.sleep` raise `ValueError`, swallowed by the enclosing
`except Exception: pass`, so no sleep happens then.  Returns the seconds
slept. -/
def retry_after_wait (status : ℕ) (retryAfter : Option ℤ) : ℤ :=
  match retryAfter with
  | none => 0
  | some w => if status = 429 then (if min w 20 < 0 then 0 else min w 20) else 0

/-- Outcome record of `probe` (`monitor.py` lines 156-176), extended with the
seconds slept on a 429 `Retry-After` response. -/
structure ProbeOut where
  status_code : Option ℕ
  ok : Bool
  error : String
  retry_sleep : ℤ
  deriving DecidableEq

/-- Embeds `probe` (`monitor.py` lines 156-176): a `requests.RequestException` is
caught and reported as `ok=False` with `error=str(e)`; otherwise `ok` is
`resp.ok`, i.e. status < 400. -/
def probe (net : Except String HttpResp) : ProbeOut :=
  match net with
  | .error e => { status_code := none, ok := false, error := e, retry_sleep := 0 }
  | .ok r =>
      { status_code := some r.status
        ok := decide (r.status < 400)
        error := ""
        retry_sleep := retry_after_wait r.status r.retryAfter }

/-- Outcome record of `check_products` (`monitor.py` lines 117-154). -/
structure ProductsOut where
  total_productos : Option ℤ
  tiene_productos : Option Bool
  productos_api_status : Option ℕ
  productos_error : String
  retry_sleep : ℤ
  deriving DecidableEq

/-- Embeds `check_products` (`monitor.py` lines 117-154): on `resp.ok` the
`totalElements` value (default 0) decides `tiene_productos`; on a non-ok
status the fields are `None` with an `HTTP <code>` message; on a
`requests.RequestException` they are `None` with `str(e)`. -/
def check_products (net : Except String ProductsResp) : ProductsOut :=
  match net with
  | .error e =>
      { total_productos := none, tiene_productos := none
        productos_api_status := none, productos_error := e, retry_sleep := 0 }
  | .ok r =>
      let slp := retry_after_wait r.status r.retryAfter
      if r.status < 400 then
        let total := r.totalElements.getD 0
        { total_productos := some total
          tiene_productos := some (decide (0 < total))
          productos_api_status := some r.status
          productos_error := ""
          retry_sleep := slp }
      else
        { total_productos := none, tiene_productos := none
          productos_api_status := some r.status
          productos_error := "HTTP " ++ toString r.status
          retry_sleep := slp }

/-- One enumerated category (`walk_links` output item). -/
structure CategoryItem where
  id : Option ℤ
  nombre : String
  link : String
  deriving DecidableEq

/-- Python truthiness of `item.get("id")`: present and non-zero. -/
def idTruthy (id : Option ℤ) : Bool :=
  match id with
  | none => false
  | some v => decide (v ≠ 0)

/-- One per-category result dictionary as built by `probe_with_products`
(`monitor.py` lines 178-201) or consumed by the aggregation. -/
structure CatResult where
  id : Option ℤ
  nombre : String
  link : String
  url : String
  status_code : Option ℕ
  ok : Bool
  error : String
  total_productos : Option ℤ
  tiene_productos : Option Bool
  productos_api_status : Option ℕ
  productos_error : String
  deriving DecidableEq

/-- Embeds `probe_with_products` (`monitor.py` lines 178-201).  The two network-call
outcomes are passed explicitly.  Also returns whether the products API call
was made: the source guards it with `if item.get("id"):` only.  The second
component is that guard's value. -/
def probe_with_products (item : CategoryItem) (url : String)
    (urlNet : Except String HttpResp) (prodNet : Except String ProductsResp) :
    CatResult × Bool :=
  let u := probe urlNet
  let base : CatResult :=
    { id := item.id, nombre := item.nombre, link := item.link, url := url
      status_code := u.status_code, ok := u.ok, error := u.error
      total_productos := none, tiene_productos := none
      productos_api_status := none, productos_error := "ID no disponible" }
  if idTruthy item.id then
    let p := check_products prodNet
    ({ base with
        total_productos := p.total_productos
        tiene_productos := p.tiene_productos
        productos_api_status := p.productos_api_status
        productos_error := p.productos_error }, true)
  else
    (base, false)

/-- One submitted future of `run_monitor`'s pool: the category item and either
the `probe_with_products` call's inputs (the task ran to completion) or the
message of an unexpected exception raised by the task itself
(`fut.result()` re-raising in `monitor.py` lines 223-232). -/
structure CatTask where
  item : CategoryItem
  url : String
  outcome : Except String (Except String HttpResp × Except String ProductsResp)

/-- Whether the future ran to completion (its `fut.result()` does not raise). -/
def CatTask.completed (t : CatTask) : Bool :=
  match t.outcome with
  | .ok _ => true
  | .error _ => false

/-- The result collection loop of `run_monitor` (`monitor.py` lines 216-232),
over the futures in completion order: a future that raises is only logged —
no result is appended for it. -/
def run_monitor_results (tasks : List CatTask) : List CatResult :=
  tasks.filterMap fun t =>
    match t.outcome with
    | .ok (u, p) => some (probe_with_products t.item t.url u p).1
    | .error _ => none

/-- The `urls_ok` count (`monitor.py` line 236). -/
def urls_ok (l : List CatResult) : ℕ := (l.filter fun r => r.ok).length

/-- The `con_productos` count (`monitor.py` line 238): Python truthiness of
`r.get("tiene_productos")` holds exactly for `True`. -/
def con_productos (l : List CatResult) : ℕ :=
  (l.filter fun r => r.tiene_productos = some true).length

/-- The `sin_productos` count (`monitor.py` line 239): `== False` holds exactly
for `False` (`None == False` is `False` in Python). -/
def sin_productos (l : List CatResult) : ℕ :=
  (l.filter fun r => r.tiene_productos = some false).length

/-- Embeds `health_score` (`monitor.py` line 241):
`round((con_productos / len(resultados) * 100), 1) if resultados else 0`. -/
def health_score (l : List CatResult) : ℚ :=
  if l = [] then 0
  else round1 ((con_productos l : ℚ) / (l.length : ℚ) * 100)

/-- One row of the previously persisted `categories_status.csv` as loaded by
`load_previous_categories` (`monitor.py` lines 265-282): keyed by the `id`
column (rows with empty id are skipped), with `nombre` and `total_productos`
kept as strings. -/
structure PrevCat where
  id : String
  nombre : String
  total_productos : String
  deriving DecidableEq

/-- Computes `str(r.get('id', ''))` for a result row: `str` of the id when present,
the empty string otherwise. -/
def pyStrId (id : Option ℤ) : String :=
  match id with
  | none => ""
  | some v => toString v

/-- The `current_ids` of `compare_categories` (`monitor.py` line 286):
id strings of the current results whose id is truthy. -/
def current_id_set (current : List CatResult) : Finset String :=
  ((current.filter fun r => idTruthy r.id).map fun r => pyStrId r.id).toFinset

/-- The `previous_ids` of `compare_categories` (`monitor.py` line 287): the key
set of the loaded previous-categories dict. -/
def previous_id_set (previous : List PrevCat) : Finset String :=
  (previous.map fun p => p.id).toFinset

/-- Insertion of one element into a sorted list, for `sorted(..., key=...)`. -/
def insertLe {α : Type} (le : α → α → Bool) (a : α) : List α → List α
  | [] => [a]
  | b :: l => if le a b then a :: b :: l else b :: insertLe le a l

/-- Embeds `sorted(...)` / `list.sort(...)`: the properties below use only that
sorting permutes the list, so Python's sort is modelled as insertion sort. -/
def pySort {α : Type} (le : α → α → Bool) : List α → List α
  | [] => []
  | a :: l => insertLe le a (pySort le l)

/-- Output of `compare_categories` (`monitor.py` lines 284-302). -/
structure Comparison where
  new : List CatResult
  removed : List PrevCat
  new_count : ℕ
  removed_count : ℕ
  deriving DecidableEq

/-- String order used for `key=lambda x: x.get('nombre', '')`. -/
def nombreLeCat (a b : CatResult) : Bool := (compare a.nombre b.nombre).isLE

/-- String order on previous rows for the same sort key. -/
def nombreLePrev (a b : PrevCat) : Bool := (compare a.nombre b.nombre).isLE

/-- Embeds `compare_categories` (`monitor.py` lines 284-302): pure set differences on
id strings; the returned lists are the matching rows sorted by name. -/
def compare_categories (current : List CatResult) (previous : List PrevCat) :
    Comparison :=
  let current_ids := current_id_set current
  let previous_ids := previous_id_set previous
  let new_ids := current_ids \ previous_ids
  let new_categories := current.filter fun r => pyStrId r.id ∈ new_ids
  let removed_ids := previous_ids \ current_ids
  let removed_categories := previous.filter fun p => p.id ∈ removed_ids
  { new := pySort nombreLeCat new_categories
    removed := pySort nombreLePrev removed_categories
    new_count := new_categories.length
    removed_count := removed_categories.length }

/-- An `added` item of a history entry (`monitor.py` lines 341-346). -/
structure AddedRef where
  id : Option ℤ
  nombre : String
  timestamp : String
  deriving DecidableEq

/-- A `removed` item of a history entry (`monitor.py` lines 348-354); its id
is the string key from the previous-categories dict. -/
structure RemovedRef where
  id : String
  nombre : String
  timestamp : String
  deriving DecidableEq

/-- One entry of `categories_history.json` (`monitor.py` lines 332-338). -/
structure HistoryEntry where
  timestamp : String
  total_categories : ℕ
  added : List AddedRef
  removed : List RemovedRef
  deriving DecidableEq

/-- The entry built by `update_category_history` (`monitor.py` lines 332-355). -/
def mk_history_entry (comparison : Comparison) (timestamp : String)
    (current_categories : List CatResult) : HistoryEntry :=
  { timestamp := timestamp
    total_categories := current_categories.length
    added := comparison.new.map fun c => ⟨c.id, c.nombre, timestamp⟩
    removed := comparison.removed.map fun c => ⟨c.id, c.nombre, timestamp⟩ }

/-- Embeds `update_category_history` (`monitor.py` lines 327-357): appends the new
entry at the end of the history list. -/
def update_category_history (history : List HistoryEntry) (comparison : Comparison)
    (timestamp : String) (current_categories : List CatResult) : List HistoryEntry :=
  history ++ [mk_history_entry comparison timestamp current_categories]

/-- The trim of `save_category_history` (`monitor.py` lines 314-318): keep the
last 30 entries (`history[-30:]`) when more than 30 are held. -/
def save_trim (history : List HistoryEntry) : List HistoryEntry :=
  if 30 < history.length then history.drop (history.length - 30) else history

/-- Primitive file-system operations, for the crash-atomicity analysis of the
history write. -/
inductive DiskOp where
  | truncate (path : String)
  | append (path : String) (chunk : String)
  | rename (src dst : String)

/-- A disk maps a path to its content when the file exists. -/
def Disk : Type := String → Option String

/-- Effect of one operation: `truncate` is `open(path, 'w')`, `append` one
buffered write, `rename` an atomic replace. -/
def applyOp (d : Disk) : DiskOp → Disk
  | .truncate p => fun q => if q = p then some "" else d q
  | .append p c => fun q => if q = p then some ((d p).getD "" ++ c) else d q
  | .rename src dst => fun q => if q = dst then d src else if q = src then none else d q

/-- Run a sequence of disk operations. -/
def runOps (d : Disk) (ops : List DiskOp) : Disk := ops.foldl applyOp d

/-- The write sequence of `save_category_history` (`monitor.py` lines
320-325): `open(history_path, 'w')` truncates the history file in place, then
`json.dump` writes the serialized history in one or more chunks.  No
temporary file and no rename are involved. -/
def save_category_history_ops (path : String) (chunks : List String) : List DiskOp :=
  DiskOp.truncate path :: chunks.map (DiskOp.append path)

end Monitor

namespace Delivery

/-- Embeds `REGIONES` (`delivery_monitor.py` lines 57-74). -/
def REGIONES (id : ℤ) : Option String :=
  if id = 1 then some "Tarapacá" else if id = 2 then some "Antofagasta"
  else if id = 3 then some "Atacama" else if id = 4 then some "Coquimbo"
  else if id = 5 then some "Valparaíso" else if id = 6 then some "O\x27Higgins"
  else if id = 7 then some "Maule" else if id = 8 then some "Biobío"
  else if id = 9 then some "Araucanía" else if id = 10 then some "Los Lagos"
  else if id = 11 then some "Aysén" else if id = 12 then some "Magallanes"
  else if id = 13 then some "Metropolitana" else if id = 14 then some "Los Ríos"
  else if id = 15 then some "Arica y Parinacota" else if id = 16 then some "Ñuble"
  else none

/-- One tariff object of the delivery payload. -/
structure Tarifa where
  fecha_entrega : Option String := none
  dias_entrega : Option ℤ := none
  transporte : Option String := none
  deriving DecidableEq

/-- The JSON body of the delivery-availability endpoint as far as
`parse_payload` inspects it: the stringified `codigo` field when present
(`str` of its JSON value), and `resultado.tarifas` (empty when either level
is missing or null, per the `or {}` / `or []` defaults). -/
structure DPayload where
  codigo : Option String := none
  tarifas : List Tarifa := []
  deriving DecidableEq

/-- The `{}` passed by `check_comuna` when the payload is `None`. -/
def emptyPayload : DPayload := {}

/-- Result tuple of `parse_payload`. -/
structure ParsedPayload where
  estado : String
  fecha_entrega : Option String
  dias_entrega : Option ℤ
  transporte : Option String
  deriving DecidableEq

/-- Embeds `parse_payload` (`delivery_monitor.py` lines 200-210):
`str(payload.get("codigo"))` is `"None"` for a missing field, so anything but
a `codigo` stringifying to `"0"` is `No disponible`; with code 0 and a
non-empty tariff list, the first tariff yields `Disponible`. -/
def parse_payload (payload : DPayload) : ParsedPayload :=
  if payload.codigo.getD "None" ≠ "0" then ⟨"No disponible", none, none, none⟩
  else
    match payload.tarifas with
    | [] => ⟨"No disponible", none, none, none⟩
    | t0 :: _ => ⟨"Disponible", t0.fecha_entrega, t0.dias_entrega, t0.transporte⟩

/-- A response to the availability call as `call_endpoint` consumes it: the
status code and the parsed body (`none` for an empty body; a body that fails
to parse as JSON raises, which is the `Except.error` case of the call). -/
structure DResp where
  status : ℕ
  body : Option DPayload := none
  deriving DecidableEq

/-- Embeds `call_endpoint` (`delivery_monitor.py` lines 166-171): any exception is
swallowed into `(0, None)` — the exception's message is discarded. -/
def call_endpoint (net : Except String DResp) : ℕ × Option DPayload :=
  match net with
  | .error _ => (0, none)
  | .ok r => (r.status, r.body)

/-- A response to the shipping-cost call as `get_costo_despacho` consumes it:
the status code and the `costo` field of each entry of `opciones` (`[]` when
the field is missing or null). -/
structure CostResp where
  status : ℕ
  opciones : List (Option ℤ) := []
  deriving DecidableEq

/-- Embeds `get_costo_despacho` (`delivery_monitor.py` lines 173-198): returns
`(costo, gratis)`; `(None, False)` on a non-200 status, an empty `opciones`
list, or any exception. -/
def get_costo_despacho (net : Except String CostResp) : Option ℤ × Bool :=
  match net with
  | .error _ => (none, false)
  | .ok r =>
      if r.status ≠ 200 then (none, false)
      else
        match r.opciones with
        | [] => (none, false)
        | c :: _ => (c, match c with | some v => decide (v = 0) | none => false)

/-- A comuna row loaded from the reference table. -/
structure ComunaData where
  nombre : String
  id_region : ℤ
  despacho : ℤ := 1
  deriving DecidableEq

/-- A ciudad row loaded from the reference table. -/
structure CiudadData where
  nombre : String
  id_region : ℤ
  deriving DecidableEq

/-- One per-comuna result dictionary.  `check_comuna` itself has no `error`
key; only the synthesized error result of the run loop sets one, so the field
is an `Option`.  Likewise `precio_despacho`/`despacho_gratis` are absent from
the synthesized error dictionary, modelled by their falsy defaults there. -/
structure DeliveryResult where
  id_comuna : ℤ
  comuna : String
  id_region : ℤ
  region : String
  id_ciudad : Option ℤ
  ciudad : String
  estado : String
  fecha_entrega : Option String
  dias_entrega : Option ℤ
  transporte : Option String
  precio_despacho : Option ℤ
  despacho_gratis : Bool
  http_code : ℕ
  url : String
  error : Option String
  deriving DecidableEq

/-- Embeds `check_comuna` (`delivery_monitor.py` lines 212-248).  The two
network-call outcomes are explicit; the second component records whether the
cost endpoint was called, which the source guards with
`if estado == "Disponible":`. -/
def check_comuna (id_comuna : ℤ) (comuna_data : ComunaData)
    (id_ciudad : ℤ) (ciudad_data : Option CiudadData) (url : String)
    (net1 : Except String DResp) (net2 : Except String CostResp) :
    DeliveryResult × Bool :=
  let hc := call_endpoint net1
  let parsed := parse_payload (hc.2.getD emptyPayload)
  let second := parsed.estado == "Disponible"
  let cost := if second then get_costo_despacho net2 else (none, false)
  ({ id_comuna := id_comuna
     comuna := comuna_data.nombre
     id_region := comuna_data.id_region
     region := (REGIONES comuna_data.id_region).getD
       ("Región " ++ toString comuna_data.id_region)
     id_ciudad := some id_ciudad
     ciudad := match ciudad_data with | some c => c.nombre | none => "N/A"
     estado := parsed.estado
     fecha_entrega := parsed.fecha_entrega
     dias_entrega := parsed.dias_entrega
     transporte := parsed.transporte
     precio_despacho := cost.1
     despacho_gratis := cost.2
     http_code := hc.1
     url := url
     error := none }, second)

/-- The inputs a dispatched `check_comuna` call would consume. -/
structure CheckInputs where
  id_ciudad : ℤ
  ciudad_data : Option CiudadData
  url : String
  net1 : Except String DResp
  net2 : Except String CostResp

/-- One submitted future of `run_delivery_monitor`'s pool: the comuna and
either the `check_comuna` inputs (the task ran to completion) or the message
of an unexpected exception raised by the task itself. -/
structure ComunaTask where
  id_comuna : ℤ
  comuna_data : ComunaData
  outcome : Except String CheckInputs

/-- The error dictionary synthesized by `run_delivery_monitor` when a future
raises (`delivery_monitor.py` lines 311-328): note `REGIONES.get(..., "")`
with an empty-string default here, and no `precio_despacho` /
`despacho_gratis` keys. -/
def delivery_error_result (id_comuna : ℤ) (comuna_data : ComunaData)
    (e : String) : DeliveryResult :=
  { id_comuna := id_comuna
    comuna := comuna_data.nombre
    id_region := comuna_data.id_region
    region := (REGIONES comuna_data.id_region).getD ""
    id_ciudad := none
    ciudad := "Error"
    estado := "Error"
    fecha_entrega := none
    dias_entrega := none
    transporte := none
    precio_despacho := none
    despacho_gratis := false
    http_code := 0
    url := ""
    error := some e }

/-- Sort key of `results.sort` (`delivery_monitor.py` line 331): the tuple
`(id_region, comuna)` in lexicographic order. -/
def deliveryLe (a b : DeliveryResult) : Bool :=
  ((compare a.id_region b.id_region).then (compare a.comuna b.comuna)).isLE

/-- The result collection of `run_delivery_monitor` (`delivery_monitor.py`
lines 302-331): every future yields exactly one appended result — its
`check_comuna` dictionary, or the synthesized error dictionary when it raised
— and the collected list is then sorted by `(id_region, comuna)`. -/
def run_delivery_results (tasks : List ComunaTask) : List DeliveryResult :=
  Monitor.pySort deliveryLe
    (tasks.map fun t =>
      match t.outcome with
      | .ok inp =>
          (check_comuna t.id_comuna t.comuna_data inp.id_ciudad inp.ciudad_data
            inp.url inp.net1 inp.net2).1
      | .error e => delivery_error_result t.id_comuna t.comuna_data e)

/-- The count `len(disponibles)` (`delivery_monitor.py` line 334). -/
def disponibles_count (results : List DeliveryResult) : ℕ :=
  (results.filter fun r => r.estado = "Disponible").length

/-- The count `len(no_disponibles)` (`delivery_monitor.py` line 335). -/
def no_disponibles_count (results : List DeliveryResult) : ℕ :=
  (results.filter fun r => r.estado = "No disponible").length

/-- The count `len(errores)` (`delivery_monitor.py` line 336). -/
def errores_count (results : List DeliveryResult) : ℕ :=
  (results.filter fun r => r.estado = "Error").length

/-- Embeds `cobertura_pct` (`delivery_monitor.py` line 405):
`round(len(disponibles) / len(results) * 100, 1) if results else 0`. -/
def cobertura_pct (results : List DeliveryResult) : ℚ :=
  if results = [] then 0
  else round1 ((disponibles_count results : ℚ) / (results.length : ℚ) * 100)

/-- The count fields of `summary` (`delivery_monitor.py` lines 398-411). -/
structure DeliverySummary where
  total_comunas : ℕ
  disponibles : ℕ
  no_disponibles : ℕ
  errores : ℕ
  cobertura_pct : ℚ
  deriving DecidableEq

/-- Builds the summary counts from the result list (`delivery_monitor.py`
lines 334-336 and 398-411). -/
def delivery_summary (results : List DeliveryResult) : DeliverySummary :=
  { total_comunas := results.length
    disponibles := disponibles_count results
    no_disponibles := no_disponibles_count results
    errores := errores_count results
    cobertura_pct := cobertura_pct results }

end Delivery

namespace Samples

/-- A category task whose future raises (`probeFn` defect). -/
def c1task : Monitor.CatTask := ⟨⟨some 1, "Notebooks", "notebooks"⟩, "u", .error "boom"⟩

/-- A category result with the given `tiene_productos`, everything else inert. -/
def catWithTiene (t : Option Bool) : Monitor.CatResult :=
  ⟨some 1, "n", "l", "u", some 200, true, "", some 1, t, some 200, ""⟩

/-- Five results, 3 available and 2 unavailable (the spec's aggregation case). -/
def c2five : List Monitor.CatResult :=
  [catWithTiene (some true), catWithTiene (some true), catWithTiene (some true),
   catWithTiene (some false), catWithTiene (some false)]

/-- Two results: one available, one unknown-due-to-error. -/
def c2mixed : List Monitor.CatResult := [catWithTiene (some true), catWithTiene none]

/-- A disk holding a previous history log. -/
def c3disk : Monitor.Disk :=
  fun p => if p = "output/categories_history.json" then some "PREVIOUS" else none

/-- An inert history entry. -/
def entry0 : Monitor.HistoryEntry := ⟨"2025-01-01T00:00:00Z", 0, [], []⟩

/-- An inert comparison. -/
def comp0 : Monitor.Comparison := ⟨[], [], 0, 0⟩

/-- A category result with the given id, everything else inert. -/
def catWithId (id : ℤ) : Monitor.CatResult :=
  ⟨some id, "n", "l", "u", some 200, true, "", some 1, some true, some 200, ""⟩

/-- Current results with ids 2, 3, 4 (the spec's diff case). -/
def c5current : List Monitor.CatResult := [catWithId 2, catWithId 3, catWithId 4]

/-- Previous rows with ids 1, 2, 3 (the spec's diff case). -/
def c5previous : List Monitor.PrevCat := [⟨"1", "a", "10"⟩, ⟨"2", "b", "20"⟩, ⟨"3", "c", "30"⟩]

/-- A category with a truthy id. -/
def c6item : Monitor.CategoryItem := ⟨some 734, "Notebooks", "notebooks"⟩

/-- A successful products response with 5 products. -/
def c6prod : Except String Monitor.ProductsResp := .ok ⟨200, none, some 5⟩

/-- A comuna row. -/
def comuna0 : Delivery.ComunaData := ⟨"Maipu", 13, 1⟩

/-- An available delivery payload: code 0 with one tariff. -/
def payload0 : Delivery.DPayload := ⟨some "0", [⟨some "2025-01-02", some 2, some "Propio"⟩]⟩

/-- A delivery task whose two calls both succeed, with an available payload. -/
def dtask0 : Delivery.ComunaTask :=
  ⟨118, comuna0, .ok ⟨1, some ⟨"SANTIAGO", 13⟩, "u", .ok ⟨200, some payload0⟩, .ok ⟨200, [some 3990]⟩⟩⟩

/-- The result `check_comuna` produces for `dtask0`'s inputs. -/
def dRes0 : Delivery.DeliveryResult :=
  (Delivery.check_comuna 118 comuna0 1 (some ⟨"SANTIAGO", 13⟩) "u"
    (.ok ⟨200, some payload0⟩) (.ok ⟨200, [some 3990]⟩)).1

end Samples

section Helpers

theorem insertLe_perm {α : Type} (le : α → α → Bool) (a : α) (l : List α) :
    (Monitor.insertLe le a l).Perm (a :: l) := by
  induction l with
  | nil => exact List.Perm.refl _
  | cons b t ih =>
    unfold Monitor.insertLe
    split
    · exact List.Perm.refl _
    · exact (ih.cons b).trans (List.Perm.swap a b t)

theorem pySort_perm {α : Type} (le : α → α → Bool) (l : List α) :
    (Monitor.pySort le l).Perm l := by
  induction l with
  | nil => exact List.Perm.refl _
  | cons a t ih => exact (insertLe_perm le a _).trans (ih.cons a)

/-- The per-future result of the delivery run loop. -/
def deliveryTaskResult (t : Delivery.ComunaTask) : Delivery.DeliveryResult :=
  match t.outcome with
  | .ok inp =>
      (Delivery.check_comuna t.id_comuna t.comuna_data inp.id_ciudad inp.ciudad_data
        inp.url inp.net1 inp.net2).1
  | .error e => Delivery.delivery_error_result t.id_comuna t.comuna_data e

theorem run_delivery_results_eq (tasks : List Delivery.ComunaTask) :
    Delivery.run_delivery_results tasks =
      Monitor.pySort Delivery.deliveryLe (tasks.map deliveryTaskResult) := by
  unfold Delivery.run_delivery_results deliveryTaskResult
  rfl

theorem deliveryTaskResult_id (t : Delivery.ComunaTask) :
    (deliveryTaskResult t).id_comuna = t.id_comuna := by
  unfold deliveryTaskResult
  cases t.outcome <;> rfl

theorem parse_payload_estado (p : Delivery.DPayload) :
    (Delivery.parse_payload p).estado = "Disponible" ∨
    (Delivery.parse_payload p).estado = "No disponible" := by
  unfold Delivery.parse_payload
  split
  · right; rfl
  · split
    · right; rfl
    · left; rfl

theorem check_comuna_estado (id_comuna : ℤ) (cd : Delivery.ComunaData) (idc : ℤ)
    (ci : Option Delivery.CiudadData) (url : String)
    (n1 : Except String Delivery.DResp) (n2 : Except String Delivery.CostResp) :
    (Delivery.check_comuna id_comuna cd idc ci url n1 n2).1.estado =
      (Delivery.parse_payload
        ((Delivery.call_endpoint n1).2.getD Delivery.emptyPayload)).estado := rfl

theorem deliveryTaskResult_estado (t : Delivery.ComunaTask) :
    (deliveryTaskResult t).estado = "Disponible" ∨
    (deliveryTaskResult t).estado = "No disponible" ∨
    (deliveryTaskResult t).estado = "Error" := by
  unfold deliveryTaskResult
  cases t.outcome with
  | error e => right; right; rfl
  | ok inp =>
    rw [check_comuna_estado]
    rcases parse_payload_estado
        ((Delivery.call_endpoint inp.net1).2.getD Delivery.emptyPayload) with h | h
    · exact Or.inl h
    · exact Or.inr (Or.inl h)

theorem count_estado_partition (l : List Delivery.DeliveryResult)
    (h : ∀ r ∈ l, r.estado = "Disponible" ∨ r.estado = "No disponible" ∨ r.estado = "Error") :
    Delivery.disponibles_count l + Delivery.no_disponibles_count l +
      Delivery.errores_count l = l.length := by
  induction l with
  | nil => rfl
  | cons a t ih =>
    have ha := h a (List.mem_cons_self a t)
    have ht := ih fun r hr => h r (List.mem_cons_of_mem a hr)
    unfold Delivery.disponibles_count Delivery.no_disponibles_count Delivery.errores_count at *
    rcases ha with h1 | h1 | h1 <;> simp [List.filter_cons, h1] <;> omega

theorem count_tiene_partition (l : List Monitor.CatResult)
    (h : ∀ r ∈ l, r.tiene_productos ≠ none) :
    Monitor.con_productos l + Monitor.sin_productos l = l.length := by
  induction l with
  | nil => rfl
  | cons a t ih =>
    have ha := h a (List.mem_cons_self a t)
    have ht := ih fun r hr => h r (List.mem_cons_of_mem a hr)
    unfold Monitor.con_productos Monitor.sin_productos at *
    rcases hb : a.tiene_productos with _ | b
    · exact absurd hb ha
    · rcases b <;> simp [List.filter_cons, hb] <;> omega

theorem count_estado_noerr_partition (l : List Delivery.DeliveryResult)
    (h : ∀ r ∈ l, r.estado = "Disponible" ∨ r.estado = "No disponible") :
    Delivery.disponibles_count l + Delivery.no_disponibles_count l = l.length := by
  induction l with
  | nil => rfl
  | cons a t ih =>
    have ha := h a (List.mem_cons_self a t)
    have ht := ih fun r hr => h r (List.mem_cons_of_mem a hr)
    unfold Delivery.disponibles_count Delivery.no_disponibles_count at *
    rcases ha with h1 | h1 <;> simp [List.filter_cons, h1] <;> omega

theorem runOps_appends (path : String) (chunks : List String) (d : Monitor.Disk)
    (s : String) (hd : d path = some s) :
    Monitor.runOps d (chunks.map (Monitor.DiskOp.append path)) path =
      some (chunks.foldl (fun acc c => acc ++ c) s) := by
  induction chunks generalizing d s with
  | nil => simpa [Monitor.runOps] using hd
  | cons c t ih =>
    have step : Monitor.applyOp d (Monitor.DiskOp.append path c) path = some (s ++ c) := by
      simp [Monitor.applyOp, hd]
    simpa [Monitor.runOps] using ih (Monitor.applyOp d (Monitor.DiskOp.append path c)) (s ++ c) step

end Helpers

/-- C1 (counterexample): in the category variant a single target whose task
raises produces an empty result list — the target is dropped, so the result
count differs from the target count. -/
theorem C1_counterexample :
    (Monitor.run_monitor_results [Samples.c1task]).length ≠ [Samples.c1task].length := by
  decide

/-- C1 (amended): the delivery run engine returns exactly one result per
target — the length matches and the result comuna-ids are a permutation of
the task comuna-ids — synthesizing an error result when a task raises; the
category run engine instead drops every target whose task raised, returning
exactly one result per task that completed. -/
theorem C1_per_target_results (dtasks : List Delivery.ComunaTask)
    (ctasks : List Monitor.CatTask) :
    (Delivery.run_delivery_results dtasks).length = dtasks.length ∧
    ((Delivery.run_delivery_results dtasks).map fun r => r.id_comuna).Perm
      (dtasks.map fun t => t.id_comuna) ∧
    (Monitor.run_monitor_results ctasks).length =
      (ctasks.filter fun t => t.completed).length := by
  refine ⟨?_, ?_, ?_⟩
  · rw [run_delivery_results_eq]
    rw [(pySort_perm Delivery.deliveryLe _).length_eq, List.length_map]
  · rw [run_delivery_results_eq]
    have h1 := ((pySort_perm Delivery.deliveryLe (dtasks.map deliveryTaskResult)).map
      fun r => r.id_comuna)
    refine h1.trans ?_
    rw [List.map_map]
    have : ((fun r => Delivery.DeliveryResult.id_comuna r) ∘ deliveryTaskResult) =
        fun t => t.id_comuna := by
      funext t
      exact deliveryTaskResult_id t
    rw [this]
  · induction ctasks with
    | nil => rfl
    | cons t ts ih =>
      rcases h : t.outcome with e | inp <;>
        simp [Monitor.run_monitor_results, Monitor.CatTask.completed, List.filter_cons, h,
          List.filterMap_cons] at ih ⊢ <;>
        omega

/-- C4: after every write the persisted history holds at most 30 entries, and
appending to a history already holding exactly 30 entries evicts exactly the
oldest entry, preserving the order of the remainder. -/
theorem C4_history_bound (h : List Monitor.HistoryEntry) (comparison : Monitor.Comparison)
    (ts : String) (cur : List Monitor.CatResult) :
    (Monitor.save_trim h).length ≤ 30 ∧
    (h.length = 30 →
      Monitor.save_trim (Monitor.update_category_history h comparison ts cur) =
        h.tail ++ [Monitor.mk_history_entry comparison ts cur]) := by
  constructor
  · unfold Monitor.save_trim
    split
    · rw [List.length_drop]
      omega
    · omega
  · intro h30
    unfold Monitor.update_category_history Monitor.save_trim
    have hlen : (h ++ [Monitor.mk_history_entry comparison ts cur]).length = 31 := by
      simp [h30]
    rw [if_pos (by omega), hlen]
    have : (31 : ℕ) - 30 = 1 := by norm_num
    rw [this, List.drop_append_of_le_length (by omega), List.drop_one]

/-- C4 witness: a history of exactly 30 entries trimmed after an append. -/
theorem C4_history_bound_witness :
    Monitor.save_trim (Monitor.update_category_history
        (List.replicate 30 Samples.entry0) Samples.comp0 "t" []) =
      (List.replicate 30 Samples.entry0).tail ++
        [Monitor.mk_history_entry Samples.comp0 "t" []] :=
  (C4_history_bound (List.replicate 30 Samples.entry0) Samples.comp0 "t" []).2 (by simp)

/-- C9: on a 429 response carrying an integer `Retry-After` value `w`, both
probers sleep at least `min w 20` seconds before returning. -/
theorem C9_retry_after_sleep (w : ℤ) (r : Monitor.HttpResp) (p : Monitor.ProductsResp)
    (hr : r.status = 429) (hra : r.retryAfter = some w)
    (hp : p.status = 429) (hpa : p.retryAfter = some w) :
    min w 20 ≤ (Monitor.probe (.ok r)).retry_sleep ∧
    min w 20 ≤ (Monitor.check_products (.ok p)).retry_sleep := by
  have key : ∀ v : ℤ, min v 20 ≤ Monitor.retry_after_wait 429 (some v) := by
    intro v
    have hw : Monitor.retry_after_wait 429 (some v) =
        if min v 20 < 0 then 0 else min v 20 := by
      simp [Monitor.retry_after_wait]
    rw [hw]
    split
    · next hlt => exact le_of_lt hlt
    · exact le_refl _
  constructor
  · have hpr : (Monitor.probe (.ok r)).retry_sleep =
        Monitor.retry_after_wait r.status r.retryAfter := rfl
    rw [hpr, hr, hra]
    exact key w
  · have hsl : (Monitor.check_products (.ok p)).retry_sleep =
        Monitor.retry_after_wait p.status p.retryAfter := by
      by_cases h4 : p.status < 400 <;> simp [Monitor.check_products, h4]
    rw [hsl, hp, hpa]
    exact key w

/-- C9 witness: a 429 response with `Retry-After: 5`. -/
theorem C9_retry_after_sleep_witness :
    min (5 : ℤ) 20 ≤ (Monitor.probe (.ok ⟨429, some 5⟩)).retry_sleep ∧
    min (5 : ℤ) 20 ≤ (Monitor.check_products (.ok ⟨429, some 5, none⟩)).retry_sleep :=
  C9_retry_after_sleep 5 ⟨429, some 5⟩ ⟨429, some 5, none⟩ rfl rfl rfl rfl

/-- C10: every result of the delivery run engine has estado `Disponible`,
`No disponible` or `Error`, and the summary counts partition the result list:
disponibles + no_disponibles + errores = total_comunas. -/
theorem C10_estado_partition (tasks : List Delivery.ComunaTask) :
    (∀ r ∈ Delivery.run_delivery_results tasks,
      r.estado = "Disponible" ∨ r.estado = "No disponible" ∨ r.estado = "Error") ∧
    (Delivery.delivery_summary (Delivery.run_delivery_results tasks)).disponibles +
      (Delivery.delivery_summary (Delivery.run_delivery_results tasks)).no_disponibles +
      (Delivery.delivery_summary (Delivery.run_delivery_results tasks)).errores =
      (Delivery.delivery_summary (Delivery.run_delivery_results tasks)).total_comunas := by
  have hmem : ∀ r ∈ Delivery.run_delivery_results tasks,
      r.estado = "Disponible" ∨ r.estado = "No disponible" ∨ r.estado = "Error" := by
    intro r hr
    rw [run_delivery_results_eq] at hr
    have hr2 := (pySort_perm Delivery.deliveryLe _).mem_iff.1 hr
    rcases List.mem_map.1 hr2 with ⟨t, _, rfl⟩
    exact deliveryTaskResult_estado t
  exact ⟨hmem, count_estado_partition _ hmem⟩

/-- C10 witness: the estado of a concrete delivery result. -/
theorem C10_estado_partition_witness :
    Samples.dRes0.estado = "Disponible" ∨ Samples.dRes0.estado = "No disponible" ∨
      Samples.dRes0.estado = "Error" :=
  (C10_estado_partition [Samples.dtask0]).1 Samples.dRes0 (by decide)

/-- C3 (counterexample): with a previous history log "PREVIOUS" on disk and a
new serialization "NEWLOG", a crash right after the first step of the write
sequence leaves the file empty — neither the previous nor the new state. -/
theorem C3_counterexample :
    Samples.c3disk "output/categories_history.json" = some "PREVIOUS" ∧
    Monitor.runOps Samples.c3disk
      (Monitor.save_category_history_ops "output/categories_history.json" ["NEWLOG"])
      "output/categories_history.json" = some "NEWLOG" ∧
    Monitor.runOps Samples.c3disk
      ((Monitor.save_category_history_ops "output/categories_history.json" ["NEWLOG"]).take 1)
      "output/categories_history.json" ≠ some "PREVIOUS" ∧
    Monitor.runOps Samples.c3disk
      ((Monitor.save_category_history_ops "output/categories_history.json" ["NEWLOG"]).take 1)
      "output/categories_history.json" ≠ some "NEWLOG" := by
  refine ⟨rfl, ?_, ?_, ?_⟩ <;> decide

/-- C3 (amended): `save_category_history` writes the history file in place —
truncate, then write the serialized chunks — with no temporary file and no
atomic replace: a completed run leaves the new content, but a crash right
after the truncation leaves an empty, invalid log regardless of the previous
state. -/
theorem C3_history_write_in_place (d : Monitor.Disk) (path : String)
    (chunks : List String) :
    Monitor.runOps d (Monitor.save_category_history_ops path chunks) path =
      some (String.join chunks) ∧
    Monitor.runOps d ((Monitor.save_category_history_ops path chunks).take 1) path =
      some "" := by
  constructor
  · have h0 : Monitor.applyOp d (Monitor.DiskOp.truncate path) path = some "" := by
      simp [Monitor.applyOp]
    have := runOps_appends path chunks
      (Monitor.applyOp d (Monitor.DiskOp.truncate path)) "" h0
    simpa [Monitor.save_category_history_ops, Monitor.runOps, String.join] using this
  · simp [Monitor.save_category_history_ops, Monitor.runOps, Monitor.applyOp]

/-- C6 (counterexample): in the category variant, a failing URL probe combined
with a successful products check yields `tiene_productos = True` (available)
with `ok = False` (probe not succeeded). -/
theorem C6_counterexample :
    (Monitor.probe_with_products Samples.c6item "u" (.error "timeout")
      Samples.c6prod).1.tiene_productos = some true ∧
    (Monitor.probe_with_products Samples.c6item "u" (.error "timeout")
      Samples.c6prod).1.ok = false := by
  decide

/-- C6 (amended): in the category variant, `tiene_productos = True` implies the
products API call itself succeeded (its recorded status is < 400), though not
that the URL probe's `ok` flag is true; in the delivery variant a result with
estado `Disponible` carries no error. -/
theorem C6_available_implies_call_ok (item : Monitor.CategoryItem) (url : String)
    (u : Except String Monitor.HttpResp) (p : Except String Monitor.ProductsResp)
    (dtasks : List Delivery.ComunaTask) :
    ((Monitor.probe_with_products item url u p).1.tiene_productos = some true →
      ∃ s, (Monitor.probe_with_products item url u p).1.productos_api_status = some s ∧
        s < 400) ∧
    (∀ r ∈ Delivery.run_delivery_results dtasks,
      r.estado = "Disponible" → r.error = none) := by
  constructor
  · intro htiene
    unfold Monitor.probe_with_products at htiene ⊢
    by_cases hid : Monitor.idTruthy item.id = true
    · simp only [hid, if_true] at htiene ⊢
      rcases p with e | pr
      · exact absurd htiene (by simp [Monitor.check_products])
      · by_cases h4 : pr.status < 400
        · exact ⟨pr.status, by simp [Monitor.check_products, h4], h4⟩
        · exact absurd htiene (by simp [Monitor.check_products, h4])
    · simp only [hid] at htiene ⊢
      exact absurd htiene (by simp)
  · intro r hr hdisp
    rw [run_delivery_results_eq] at hr
    have hr2 := (pySort_perm Delivery.deliveryLe _).mem_iff.1 hr
    rcases List.mem_map.1 hr2 with ⟨t, _, rfl⟩
    unfold deliveryTaskResult at hdisp ⊢
    cases h : t.outcome with
    | ok inp => rfl
    | error e =>
      rw [h] at hdisp
      simp [Delivery.delivery_error_result] at hdisp

/-- C6 witness: concrete inputs discharging both hypotheses. -/
theorem C6_available_implies_call_ok_witness :
    (∃ s, (Monitor.probe_with_products Samples.c6item "u" (.error "timeout")
      Samples.c6prod).1.productos_api_status = some s ∧ s < 400) ∧
    Samples.dRes0.error = none :=
  ⟨(C6_available_implies_call_ok Samples.c6item "u" (.error "timeout") Samples.c6prod []).1
      (by decide),
   (C6_available_implies_call_ok Samples.c6item "u" (.error "timeout") Samples.c6prod
      [Samples.dtask0]).2 Samples.dRes0 (by decide) (by decide)⟩

/-- C7 (counterexample): a network exception in the delivery availability call
is swallowed by `call_endpoint`; `check_comuna` then reports the comuna as
plain `No disponible` with no error message at all — not as a failed probe
with a non-empty message. -/
theorem C7_counterexample :
    (Delivery.check_comuna 118 Samples.comuna0 1 (some ⟨"SANTIAGO", 13⟩) "u"
      (.error "ConnectTimeout") (.ok ⟨200, []⟩)).1.estado = "No disponible" ∧
    (Delivery.check_comuna 118 Samples.comuna0 1 (some ⟨"SANTIAGO", 13⟩) "u"
      (.error "ConnectTimeout") (.ok ⟨200, []⟩)).1.error = none ∧
    (Delivery.check_comuna 118 Samples.comuna0 1 (some ⟨"SANTIAGO", 13⟩) "u"
      (.error "ConnectTimeout") (.ok ⟨200, []⟩)).1.http_code = 0 := by
  decide

/-- C7 (amended): no prober propagates a network-call exception.  The category
probers record `ok = False` / null fields with the exception's text as the
message (empty exactly when the exception's text is empty); the delivery
`call_endpoint` instead discards the exception entirely, returning `(0, None)`,
which `check_comuna` reports as estado `No disponible` with no error field. -/
theorem C7_exceptions_caught (e : String) (id_comuna : ℤ) (cd : Delivery.ComunaData)
    (idc : ℤ) (ci : Option Delivery.CiudadData) (url : String)
    (n2 : Except String Delivery.CostResp) :
    (Monitor.probe (.error e)).ok = false ∧
    (Monitor.probe (.error e)).error = e ∧
    (Monitor.check_products (.error e)).tiene_productos = none ∧
    (Monitor.check_products (.error e)).productos_error = e ∧
    Delivery.call_endpoint (.error e) = (0, none) ∧
    (Delivery.check_comuna id_comuna cd idc ci url (.error e) n2).1.estado =
      "No disponible" ∧
    (Delivery.check_comuna id_comuna cd idc ci url (.error e) n2).1.error = none :=
  ⟨rfl, rfl, rfl, rfl, rfl, rfl, rfl⟩

/-- C8 (counterexample): in the category variant the products call (the second
step) is made even though the URL probe (the first step) failed with an
exception — the second call is not gated on the first step's outcome. -/
theorem C8_counterexample :
    (Monitor.probe_with_products Samples.c6item "u" (.error "timeout")
      Samples.c6prod).2 = true ∧
    (Monitor.probe_with_products Samples.c6item "u" (.error "timeout")
      Samples.c6prod).1.ok = false := by
  decide

/-- C8 (amended): the delivery variant calls the cost endpoint exactly when the
availability step reported `Disponible`; the category variant calls the
products endpoint exactly when the item has a truthy id, regardless of the URL
probe's outcome. -/
theorem C8_second_call_gating (item : Monitor.CategoryItem) (url : String)
    (u : Except String Monitor.HttpResp) (p : Except String Monitor.ProductsResp)
    (id_comuna : ℤ) (cd : Delivery.ComunaData) (idc : ℤ)
    (ci : Option Delivery.CiudadData) (durl : String)
    (n1 : Except String Delivery.DResp) (n2 : Except String Delivery.CostResp) :
    (Delivery.check_comuna id_comuna cd idc ci durl n1 n2).2 =
      ((Delivery.check_comuna id_comuna cd idc ci durl n1 n2).1.estado ==
        "Disponible") ∧
    (Monitor.probe_with_products item url u p).2 = Monitor.idTruthy item.id := by
  constructor
  · rfl
  · unfold Monitor.probe_with_products
    by_cases hid : Monitor.idTruthy item.id = true <;> simp [hid]

/-- C5: the diff's added ids are exactly current-ids minus previous-ids, the
removed ids exactly previous-ids minus current-ids, the two sets are disjoint,
and on current ids 2,3,4 against previous ids 1,2,3 the result is added = 4
and removed = 1. -/
theorem C5_diff_set_difference (current : List Monitor.CatResult)
    (previous : List Monitor.PrevCat) :
    ((Monitor.compare_categories current previous).new.map
        fun r => Monitor.pyStrId r.id).toFinset =
      Monitor.current_id_set current \ Monitor.previous_id_set previous ∧
    ((Monitor.compare_categories current previous).removed.map
        fun p => p.id).toFinset =
      Monitor.previous_id_set previous \ Monitor.current_id_set current ∧
    Disjoint (Monitor.current_id_set current \ Monitor.previous_id_set previous)
      (Monitor.previous_id_set previous \ Monitor.current_id_set current) ∧
    ((Monitor.compare_categories Samples.c5current Samples.c5previous).new.map
        fun r => Monitor.pyStrId r.id) = ["4"] ∧
    ((Monitor.compare_categories Samples.c5current Samples.c5previous).removed.map
        fun p => p.id) = ["1"] := by
  refine ⟨?_, ?_, disjoint_sdiff_sdiff, by decide, by decide⟩
  · have hnew : (Monitor.compare_categories current previous).new =
        Monitor.pySort Monitor.nombreLeCat
          (current.filter fun r =>
            Monitor.pyStrId r.id ∈
              Monitor.current_id_set current \ Monitor.previous_id_set previous) := rfl
    rw [hnew, List.toFinset_eq_of_perm _ _
      ((pySort_perm Monitor.nombreLeCat _).map fun r => Monitor.pyStrId r.id)]
    ext a
    simp only [List.mem_toFinset, List.mem_map, List.mem_filter, decide_eq_true_eq]
    constructor
    · rintro ⟨r, ⟨-, hP⟩, rfl⟩
      exact hP
    · intro ha
      have hc : a ∈ Monitor.current_id_set current := (Finset.mem_sdiff.1 ha).1
      simp only [Monitor.current_id_set, List.mem_toFinset, List.mem_map,
        List.mem_filter] at hc
      rcases hc with ⟨r, ⟨hrc, -⟩, hfa⟩
      exact ⟨r, ⟨hrc, by rw [hfa]; exact ha⟩, hfa⟩
  · have hrem : (Monitor.compare_categories current previous).removed =
        Monitor.pySort Monitor.nombreLePrev
          (previous.filter fun p =>
            p.id ∈
              Monitor.previous_id_set previous \ Monitor.current_id_set current) := rfl
    rw [hrem, List.toFinset_eq_of_perm _ _
      ((pySort_perm Monitor.nombreLePrev _).map fun p => Monitor.PrevCat.id p)]
    ext a
    simp only [List.mem_toFinset, List.mem_map, List.mem_filter, decide_eq_true_eq]
    constructor
    · rintro ⟨p, ⟨-, hP⟩, rfl⟩
      exact hP
    · intro ha
      have hp : a ∈ Monitor.previous_id_set previous := (Finset.mem_sdiff.1 ha).1
      simp only [Monitor.previous_id_set, List.mem_toFinset, List.mem_map] at hp
      rcases hp with ⟨p, hpc, hfa⟩
      exact ⟨p, ⟨hpc, by rw [hfa]; exact ha⟩, hfa⟩

/-- C2 (counterexample): on one available and one unknown-due-to-error result
the code computes 50.0 (it divides by the total count), while the spec formula
available/(available+unavailable) gives 100. -/
theorem C2_counterexample :
    Monitor.health_score Samples.c2mixed ≠
      spec_healthScore (Monitor.con_productos Samples.c2mixed)
        (Monitor.sin_productos Samples.c2mixed) := by
  have hcon : Monitor.con_productos Samples.c2mixed = 1 := by decide
  have hsin : Monitor.sin_productos Samples.c2mixed = 0 := by decide
  have hlen : Samples.c2mixed.length = 2 := by decide
  unfold Monitor.health_score spec_healthScore
  rw [if_neg (by decide), hcon, hsin, hlen]
  norm_num [round1, pyRoundInt]

/-- C2 (amended): both variants divide the available count by the TOTAL result
count (rounded to one decimal, 0 for an empty list), which coincides with the
spec formula available/(available+unavailable) exactly when every result has a
known availability (no unknown/error results); the spec's concrete cases hold:
3 available of 5 gives 60.0 and an empty list gives 0. -/
theorem C2_health_score (l : List Monitor.CatResult) (dl : List Delivery.DeliveryResult) :
    (l ≠ [] → (∀ r ∈ l, r.tiene_productos ≠ none) →
      Monitor.health_score l =
        round1 (spec_healthScore (Monitor.con_productos l) (Monitor.sin_productos l))) ∧
    Monitor.health_score Samples.c2five = 60 ∧
    Monitor.health_score [] = 0 ∧
    (dl ≠ [] → (∀ r ∈ dl, r.estado = "Disponible" ∨ r.estado = "No disponible") →
      Delivery.cobertura_pct dl =
        round1 (spec_healthScore (Delivery.disponibles_count dl)
          (Delivery.no_disponibles_count dl))) ∧
    Delivery.cobertura_pct [] = 0 := by
  refine ⟨?_, ?_, by simp [Monitor.health_score], ?_, by simp [Delivery.cobertura_pct]⟩
  · intro hne hall
    have hsum := count_tiene_partition l hall
    have hlen : l.length ≠ 0 := by simpa [List.length_eq_zero] using hne
    unfold Monitor.health_score spec_healthScore
    rw [if_neg hne, if_neg (by omega)]
    have hq : ((Monitor.con_productos l : ℚ) + (Monitor.sin_productos l : ℚ)) =
        (l.length : ℚ) := by
      exact_mod_cast congrArg (Nat.cast : ℕ → ℚ) hsum
    rw [hq]
  · have hcon : Monitor.con_productos Samples.c2five = 3 := by decide
    have hlen : Samples.c2five.length = 5 := by decide
    unfold Monitor.health_score
    rw [if_neg (by decide), hcon, hlen]
    norm_num [round1, pyRoundInt]
  · intro hne hall
    have hsum := count_estado_noerr_partition dl hall
    have hlen : dl.length ≠ 0 := by simpa [List.length_eq_zero] using hne
    unfold Delivery.cobertura_pct spec_healthScore
    rw [if_neg hne, if_neg (by omega)]
    have hq : ((Delivery.disponibles_count dl : ℚ) +
        (Delivery.no_disponibles_count dl : ℚ)) = (dl.length : ℚ) := by
      exact_mod_cast congrArg (Nat.cast : ℕ → ℚ) hsum
    rw [hq]

/-- C2 witness: the five-result spec case and a singleton delivery run. -/
theorem C2_health_score_witness :
    Monitor.health_score Samples.c2five =
      round1 (spec_healthScore (Monitor.con_productos Samples.c2five)
        (Monitor.sin_productos Samples.c2five)) ∧
    Delivery.cobertura_pct [Samples.dRes0] =
      round1 (spec_healthScore (Delivery.disponibles_count [Samples.dRes0])
        (Delivery.no_disponibles_count [Samples.dRes0])) :=
  ⟨(C2_health_score Samples.c2five [Samples.dRes0]).1 (by decide) (by decide),
   (C2_health_score Samples.c2five [Samples.dRes0]).2.2.2.1 (by decide) (by decide)⟩
